import Mathlib

/-!
Verification of the boca live document-preview pipeline (src/src/main.rs)
against its natural-language specification.

The embedding below mirrors the Rust source shallowly:
- filesystem reads become an oracle `String → Nat → Except String String`
  (path → attempt number → content or error cause);
- the markdown renderer becomes an oracle `String → Options → Except String String`;
- the watcher's incoming stream (`unbounded_channel` of
  `Result<notify::Event, notify::Error>`) becomes a list of
  `Except String NotifyEvent` consumed in order;
- the bounded SSE delivery channel (`tokio::sync::mpsc::channel(30)`) is
  modelled by `Channel`, and the producer side of `file_watch` is
  parameterized by which pushes succeed.
-/

deriving instance DecidableEq for Except

namespace Boca

/-! ## Event taxonomy, following the notify crate's types used by main.rs -/

/-- Rename modes of the notify crate's `ModifyKind::Name`. -/
inductive RenameMode
  | any
  | toMode
  | fromMode
  | both
  | other
deriving DecidableEq, Repr

/-- Data-change subkinds of the notify crate's `ModifyKind::Data`. -/
inductive DataChange
  | any
  | size
  | content
  | other
deriving DecidableEq, Repr

/-- Metadata subkinds of the notify crate's `ModifyKind::Metadata`. -/
inductive MetadataKind
  | any
  | accessTime
  | writeTime
  | permissions
  | ownership
  | extended
  | other
deriving DecidableEq, Repr

/-- The notify crate's `ModifyKind`: note that renames are a modify subkind. -/
inductive ModifyKind
  | any
  | data (c : DataChange)
  | metadata (m : MetadataKind)
  | name (r : RenameMode)
  | other
deriving DecidableEq, Repr

/-- The notify crate's `EventKind`. Payloads of the access/create/remove
subkinds are never inspected by main.rs, so they are elided. -/
inductive EventKind
  | any
  | access
  | create
  | modify (m : ModifyKind)
  | remove
  | other
deriving DecidableEq, Repr

/-- The notify crate's `EventKind::is_modify`: true exactly on `Modify(_)`. -/
def EventKind.is_modify : EventKind → Bool
  | .modify _ => true
  | _ => false

/-- A notify::Event as consumed by file_watch: kind and affected paths. -/
structure NotifyEvent where
  kind : EventKind
  paths : List String
deriving DecidableEq, Repr

/-! ## CLI configuration (struct Cli in main.rs) -/

/-- The Cli struct from main.rs (clap-derived fields, in declaration order). -/
structure Cli where
  filename : String
  address : String
  stylesheet : Option String
  dark : Bool
  debug : Nat
  inotify : Bool
  html : Bool
deriving DecidableEq, Repr

/-! ## Resilient reader (retry_read in main.rs) -/

/-- Outcome of a retry_read call: the returned Result, how many underlying
reads were attempted, and total milliseconds spent in backoff sleeps. -/
structure RetryOutcome where
  result : Except String String
  attempts : Nat
  sleptMs : Nat
deriving DecidableEq, Repr

/-- The `for _i in 0..count` loop body of retry_read: try the read; on
success return; on failure sleep 300 ms (even after the final attempt,
as in the source, where the sleep sits after the match inside the loop)
and continue; once attempts are exhausted, fail with the path-only message. -/
def retryReadGo (read : Nat → Except String String) (path : String) :
    Nat → Nat → Nat → RetryOutcome
  | 0, i, slept => ⟨.error ("Could not read from file " ++ path), i, slept⟩
  | fuel + 1, i, slept =>
    match read i with
    | .ok r => ⟨.ok r, i + 1, slept⟩
    | .error _ => retryReadGo read path fuel (i + 1) (slept + 300)

/-- retry_read from main.rs: `let count = 3;` then the retry loop. The
underlying `read_to_string` is the oracle `read`, indexed by attempt. -/
def retry_read (read : Nat → Except String String) (path : String) : RetryOutcome :=
  retryReadGo read path 3 0 0

/-! ## Content renderer options (markdown crate Options as set by read_to_event) -/

/-- The three compile options of the markdown crate that read_to_event touches. -/
structure Options where
  allow_dangerous_html : Bool
  allow_dangerous_protocol : Bool
  gfm_tagfilter : Bool
deriving DecidableEq, Repr

/-- `Options::gfm()` defaults for the three fields read_to_event touches:
dangerous HTML and protocols off, GFM tagfilter on. -/
def Options.gfm : Options := ⟨false, false, true⟩

/-- Options actually passed to the renderer: gfm defaults, with all three
fields flipped when html_mode is set (the `if html_mode` block). -/
def mdOpts (html_mode : Bool) : Options :=
  if html_mode then ⟨true, true, false⟩ else Options.gfm

/-! ## SSE events and read_to_event -/

/-- An axum SSE Event as built by read_to_event:
`Event::default().data(res_html).event("body")`. -/
structure SseEvent where
  data : String
  event : String
deriving DecidableEq, Repr

/-- read_to_event from main.rs: resilient read (errors propagate via `?`),
then render; a render error is converted to a displayable body via
`m.to_string()`, never into an Err return. -/
def read_to_event (fs : String → Nat → Except String String)
    (render : String → Options → Except String String)
    (filepath : String) (html_mode : Bool) : Except String SseEvent :=
  match (retry_read (fs filepath) filepath).result with
  | .error e => .error e
  | .ok md =>
    let res_html :=
      match render md (mdOpts html_mode) with
      | .ok h => h
      | .error m => m
    .ok ⟨res_html, "body"⟩

/-! ## The watch session (file_watch in main.rs) -/

/-- How a file_watch session ends. `finished` models the watcher stream
closing; `watchError` the `let file_evt = evt?;` propagation; `pushFailed`
a failed `tx.send(..).await?`; `panicked` the out-of-bounds
`file_evt.paths[0]` on an empty path list. -/
inductive SessionEnd
  | finished
  | watchError (e : String)
  | pushFailed
  | panicked
deriving DecidableEq, Repr

/-- Observable trace of one session: RenderResults pushed through the
delivery channel, in order, and how the session ended. -/
structure SessionTrace where
  pushed : List (Except String SseEvent)
  outcome : SessionEnd
deriving DecidableEq, Repr

/-- The `while let Some(evt) = watch_rx.recv().await` loop of file_watch.
`pushOk k` says whether the k-th `tx.send` of the session succeeds (the
consumer is still connected); a failed send propagates via `?` and ends
the session. Index 0 is the initial send, so the loop starts at k. -/
def file_watch_loop (fs : String → Nat → Except String String)
    (render : String → Options → Except String String)
    (html_mode : Bool) (pushOk : Nat → Bool) :
    Nat → List (Except String NotifyEvent) → SessionTrace
  | _, [] => ⟨[], .finished⟩
  | _, .error e :: _ => ⟨[], .watchError e⟩
  | k, .ok evt :: rest =>
    if evt.kind.is_modify then
      match evt.paths with
      | [] => ⟨[], .panicked⟩
      | p :: _ =>
        let msg := read_to_event fs render p html_mode
        if pushOk k then
          let t := file_watch_loop fs render html_mode pushOk (k + 1) rest
          ⟨msg :: t.pushed, t.outcome⟩
        else ⟨[], .pushFailed⟩
    else file_watch_loop fs render html_mode pushOk k rest

/-- file_watch from main.rs: one initial read_to_event of the configured
filename is sent before the watcher loop runs; then each received event is
filtered by `kind.is_modify()`, and an accepted event re-reads the event's
own first path. -/
def file_watch (fs : String → Nat → Except String String)
    (render : String → Options → Except String String)
    (pushOk : Nat → Bool) (opts : Cli)
    (evts : List (Except String NotifyEvent)) : SessionTrace :=
  let init := read_to_event fs render opts.filename opts.html
  if pushOk 0 then
    let t := file_watch_loop fs render opts.html pushOk 1 evts
    ⟨init :: t.pushed, t.outcome⟩
  else ⟨[], .pushFailed⟩

/-! ## The delivery channel (tokio::sync::mpsc::channel(30) in sse_handler) -/

/-- Capacity passed to `channel::<Result<Event, anyhow::Error>>(30)` in
sse_handler. -/
def sse_channel_capacity : Nat := 30

/-- A bounded SPSC channel: fixed capacity, FIFO buffer, and whether the
receiving half is still open. -/
structure Channel (α : Type) where
  capacity : Nat
  buffer : List α
  receiverOpen : Bool
deriving DecidableEq, Repr

/-- Outcome of one send on a bounded channel, after tokio's documented
mpsc contract: `closed` models `send` returning Err because the receiver
was dropped; `wouldBlock` models the send suspending until capacity frees
(the message is neither enqueued nor dropped while suspended);
`enqueued` carries the channel with the message appended at the back. -/
inductive PushOutcome (α : Type)
  | enqueued (c : Channel α)
  | wouldBlock
  | closed
deriving DecidableEq, Repr

/-- One send step on the bounded channel. -/
def Channel.push {α : Type} (c : Channel α) (x : α) : PushOutcome α :=
  if c.receiverOpen = false then .closed
  else if c.buffer.length < c.capacity then
    .enqueued ⟨c.capacity, c.buffer ++ [x], c.receiverOpen⟩
  else .wouldBlock

/-! ## String containment helper (executable, for escaping claims) -/

/-- Does the first list lead the second (character-wise)? -/
def startsList : List Char → List Char → Bool
  | [], _ => true
  | _ :: _, [] => false
  | a :: as, b :: bs => a == b && startsList as bs

/-- Does `pat` occur as a contiguous run inside the list? -/
def listContains (pat : List Char) : List Char → Bool
  | [] => startsList pat []
  | b :: bs => startsList pat (b :: bs) || listContains pat bs

/-- Substring test on strings. -/
def strContains (s pat : String) : Bool :=
  listContains pat.data s.data

/-! ## Spec-modelled content renderer (the external markdown crate) -/

/-- Escape of one character as HTML text. -/
def escapeChar (c : Char) : String :=
  if c = '<' then "&lt;"
  else if c = '>' then "&gt;"
  else if c = '&' then "&amp;"
  else String.singleton c

/-- Escape a raw-markup string as HTML text. -/
def escapeHtml (s : String) : String :=
  String.join (s.data.map escapeChar)

/-- Modelled from the spec: the Content Renderer implementation is the
external markdown crate, not part of this repository's sources; per the
spec, when the dangerous-content flag is unset "embedded raw markup in the
source is neutralized/escaped", and when set "raw markup passes through
unescaped". Modelled here for raw-HTML inputs only, which is all the
dangerous-content claims exercise. -/
def markdownToHtml (md : String) (opts : Options) : Except String String :=
  if opts.allow_dangerous_html then .ok md else .ok (escapeHtml md)

/-! ## Helper lemmas -/

/-- Closed form of retry_read as a three-way case split on the attempts. -/
theorem retry_read_eq (read : Nat → Except String String) (path : String) :
    retry_read read path =
      match read 0 with
      | .ok r => ⟨.ok r, 1, 0⟩
      | .error _ =>
        match read 1 with
        | .ok r => ⟨.ok r, 2, 300⟩
        | .error _ =>
          match read 2 with
          | .ok r => ⟨.ok r, 3, 600⟩
          | .error _ => ⟨.error ("Could not read from file " ++ path), 3, 900⟩ := by
  unfold retry_read
  simp only [retryReadGo]

/-- When every attempted read fails, retry_read makes 3 attempts, sleeps
3 backoffs, and returns the path-only error message. -/
theorem retry_read_all_fail (read : Nat → Except String String) (path : String)
    (h : ∀ i, i < 3 → ∃ e, read i = Except.error e) :
    retry_read read path = ⟨.error ("Could not read from file " ++ path), 3, 900⟩ := by
  obtain ⟨e0, h0⟩ := h 0 (by omega)
  obtain ⟨e1, h1⟩ := h 1 (by omega)
  obtain ⟨e2, h2⟩ := h 2 (by omega)
  rw [retry_read_eq, h0, h1, h2]

/-- When every attempted read fails, read_to_event surfaces the retry
exhaustion as the Err value of its Result. -/
theorem read_to_event_all_fail (fs : String → Nat → Except String String)
    (render : String → Options → Except String String)
    (p : String) (hm : Bool)
    (h : ∀ i, i < 3 → ∃ e, fs p i = Except.error e) :
    read_to_event fs render p hm = .error ("Could not read from file " ++ p) := by
  unfold read_to_event
  rw [retry_read_all_fail (fs p) p h]

/-- When the watcher stream consists only of Ok events whose accepted
(modify-class) members carry at least one path, and every push succeeds,
the loop pushes exactly one render per accepted event, in arrival order,
each reading the accepted event's own first path. -/
theorem file_watch_loop_spec (fs : String → Nat → Except String String)
    (render : String → Options → Except String String)
    (hm : Bool) (evts : List NotifyEvent)
    (h : ∀ e ∈ evts, e.kind.is_modify = true → e.paths ≠ []) (k : Nat) :
    file_watch_loop fs render hm (fun _ => true) k (evts.map Except.ok)
      = ⟨(evts.filter (fun e => e.kind.is_modify)).map
          (fun e => read_to_event fs render (e.paths.headD "") hm), .finished⟩ := by
  induction evts generalizing k with
  | nil => rfl
  | cons e es ih =>
    have hrest : ∀ e ∈ es, e.kind.is_modify = true → e.paths ≠ [] := by
      intro x hx
      exact h x (List.mem_cons_of_mem e hx)
    by_cases hke : e.kind.is_modify = true
    · have hp := h e (List.mem_cons_self e es) hke
      cases hpe : e.paths with
      | nil => exact absurd hpe hp
      | cons p ps =>
        simp [file_watch_loop, hke, hpe, ih hrest]
    · simp only [Bool.not_eq_true] at hke
      simp [file_watch_loop, hke, ih hrest]

/-! ## Claim C3 -/

/-- C3 (amended): for every path, the Resilient Reader attempts at most 3
reads, sleeping a fixed 300 ms backoff after each failed attempt; it
returns the file's content on the first successful attempt (failing
exactly twice then succeeding yields the correct content after 600 ms,
that is, at least 2 backoff intervals of waiting), and after all 3
attempts are exhausted it fails with a ReadError carrying the path — the
last cause is logged but is not carried in the returned error. -/
theorem c3_retry_policy (read : Nat → Except String String) (path : String) :
    (retry_read read path).attempts ≤ 3
    ∧ (∀ r, read 0 = .ok r → retry_read read path = ⟨.ok r, 1, 0⟩)
    ∧ (∀ e0 e1 r, read 0 = .error e0 → read 1 = .error e1 → read 2 = .ok r →
        retry_read read path = ⟨.ok r, 3, 600⟩ ∧ 600 = 2 * 300)
    ∧ ((∀ i, i < 3 → ∃ e, read i = Except.error e) →
        retry_read read path = ⟨.error ("Could not read from file " ++ path), 3, 900⟩) := by
  refine ⟨?_, ?_, ?_, ?_⟩
  · rw [retry_read_eq]
    cases read 0 with
    | ok r => simp
    | error e0 =>
      cases read 1 with
      | ok r => simp
      | error e1 =>
        cases read 2 with
        | ok r => simp
        | error e2 => simp
  · intro r h0
    rw [retry_read_eq, h0]
  · intro e0 e1 r h0 h1 h2
    rw [retry_read_eq, h0, h1, h2]
    exact ⟨rfl, rfl⟩
  · exact retry_read_all_fail read path

/-- C3: witness — the amended retry policy applied to a concrete oracle
that fails exactly twice and then succeeds. -/
theorem c3_retry_policy_witness :
    retry_read (fun i => if i < 2 then .error "interrupted" else .ok "# ok") "notes.md"
      = ⟨.ok "# ok", 3, 600⟩ ∧ 600 = 2 * 300 :=
  (c3_retry_policy (fun i => if i < 2 then .error "interrupted" else .ok "# ok")
    "notes.md").2.2.1 "interrupted" "interrupted" "# ok" rfl rfl rfl

/-- C3: counterexample — two all-failing read oracles that differ only in
their last cause produce identical retry_read outcomes, and the returned
error is the path-only message, which does not contain the last cause; so
the returned ReadError does not carry the last cause, contrary to the
claim. -/
theorem c3_counterexample :
    retry_read (fun i => .error (if i = 2 then "device busy" else "interrupted")) "notes.md"
      = retry_read (fun i => .error (if i = 2 then "permission denied" else "interrupted")) "notes.md"
    ∧ (retry_read (fun i => .error (if i = 2 then "device busy" else "interrupted")) "notes.md").result
      = .error "Could not read from file notes.md"
    ∧ strContains "Could not read from file notes.md" "device busy" = false := by
  refine ⟨rfl, rfl, by decide⟩

/-! ## Claim C2 -/

/-- C2: if all 3 read attempts fail for an accepted change, the session
pushes the read failure through the Delivery Channel as the Err payload
of a RenderResult, and the session is not terminated by the read failure:
the rest of the event stream is processed exactly as it otherwise would
be, after that push. -/
theorem c2_read_exhaustion (fs : String → Nat → Except String String)
    (render : String → Options → Except String String) (cli : Cli) (p : String)
    (rest : List (Except String NotifyEvent))
    (hfail : ∀ i, i < 3 → ∃ e, fs p i = Except.error e) :
    file_watch fs render (fun _ => true) cli
        (.ok ⟨.modify (.data .content), [p]⟩ :: rest)
      = ⟨read_to_event fs render cli.filename cli.html
          :: .error ("Could not read from file " ++ p)
          :: (file_watch_loop fs render cli.html (fun _ => true) 2 rest).pushed,
         (file_watch_loop fs render cli.html (fun _ => true) 2 rest).outcome⟩ := by
  have hre := read_to_event_all_fail fs render p cli.html hfail
  simp [file_watch, file_watch_loop, EventKind.is_modify, hre]

/-- C2: witness — a session whose file has vanished for good still pushes
the initial result and then the failure payload, and ends only because the
stream ends. -/
theorem c2_read_exhaustion_witness :
    file_watch (fun _ _ => .error "gone") markdownToHtml (fun _ => true)
        ⟨"notes.md", "localhost:3000", none, false, 0, false, false⟩
        [.ok ⟨.modify (.data .content), ["notes.md"]⟩]
      = ⟨read_to_event (fun _ _ => .error "gone") markdownToHtml "notes.md" false
          :: .error ("Could not read from file " ++ "notes.md")
          :: (file_watch_loop (fun _ _ => .error "gone") markdownToHtml false
                (fun _ => true) 2 []).pushed,
         (file_watch_loop (fun _ _ => .error "gone") markdownToHtml false
            (fun _ => true) 2 []).outcome⟩ :=
  c2_read_exhaustion (fun _ _ => .error "gone") markdownToHtml
    ⟨"notes.md", "localhost:3000", none, false, 0, false, false⟩ "notes.md" []
    (fun _ _ => ⟨"gone", rfl⟩)

/-! ## Claim C1 -/

/-- C1: counterexample — a bare renamed event (notify kind
Modify(Name(From)), with no accompanying data signal) is accepted by the
session's `kind.is_modify()` filter and does produce a RenderResult: the
session pushes 2 results (the initial one plus one triggered by the
rename), contradicting the claim that a bare renamed event never produces
a RenderResult. -/
theorem c1_counterexample :
    (EventKind.modify (.name .fromMode)).is_modify = true
    ∧ (file_watch (fun _ _ => .ok "# Hello") markdownToHtml (fun _ => true)
        ⟨"notes.md", "localhost:3000", none, false, 0, false, false⟩
        [.ok ⟨.modify (.name .fromMode), ["notes.md"]⟩]).pushed.length = 2 :=
  ⟨rfl, rfl⟩

/-- C1 (amended): a RawChangeEvent triggers a re-render if and only if its
class is modify, which in the event taxonomy of the watcher backend covers
data modified and metadata modified but also renames (Modify(Name)) and
the unclassified Modify(Any)/Modify(Other); accessed, created and removed
events never produce a RenderResult, and an accepted data-modified event
always produces exactly one additional RenderResult. -/
theorem c1_filter_policy (fs : String → Nat → Except String String)
    (render : String → Options → Except String String)
    (cli : Cli) (evt : NotifyEvent) (hp : evt.paths ≠ []) :
    (file_watch fs render (fun _ => true) cli [.ok evt]).pushed.length
      = if evt.kind.is_modify then 2 else 1 := by
  have hs := file_watch_loop_spec fs render cli.html [evt]
    (by intro e he _; simp only [List.mem_singleton] at he; subst he; exact hp) 1
  simp only [List.map_cons, List.map_nil] at hs
  by_cases hke : evt.kind.is_modify = true
  · simp [file_watch, hs, List.filter_cons, hke]
  · simp only [Bool.not_eq_true] at hke
    simp [file_watch, hs, List.filter_cons, hke]

/-- C1: witness — the amended filter policy at a concrete data-modified
event, which yields the initial render plus one triggered render. -/
theorem c1_filter_policy_witness :
    (file_watch (fun _ _ => .ok "# Hello") markdownToHtml (fun _ => true)
        ⟨"notes.md", "localhost:3000", none, false, 0, false, false⟩
        [.ok ⟨.modify (.data .content), ["notes.md"]⟩]).pushed.length
      = if (EventKind.modify (.data .content)).is_modify then 2 else 1 :=
  c1_filter_policy _ _ _ ⟨.modify (.data .content), ["notes.md"]⟩ (by decide)

/-! ## Claim C4 -/

/-- C4: within one session, a watcher stream of N accepted (modify-class)
change events, each carrying at least one path, yields exactly N+1
RenderResults through the Delivery Channel — the initial render followed
by one render per accepted event, in the order the events were
observed. -/
theorem c4_ordering (fs : String → Nat → Except String String)
    (render : String → Options → Except String String)
    (cli : Cli) (evts : List NotifyEvent)
    (h : ∀ e ∈ evts, e.kind.is_modify = true ∧ e.paths ≠ []) :
    (file_watch fs render (fun _ => true) cli (evts.map Except.ok)).pushed
      = read_to_event fs render cli.filename cli.html
        :: evts.map (fun e => read_to_event fs render (e.paths.headD "") cli.html)
    ∧ (file_watch fs render (fun _ => true) cli (evts.map Except.ok)).pushed.length
      = evts.length + 1 := by
  have hs := file_watch_loop_spec fs render cli.html evts (fun e he hm => (h e he).2) 1
  have hf : evts.filter (fun e => e.kind.is_modify) = evts :=
    List.filter_eq_self.mpr (fun e he => (h e he).1)
  rw [hf] at hs
  refine ⟨by simp [file_watch, hs], by simp [file_watch, hs]⟩

/-- C4: witness — two accepted events (one data-modified, one
metadata-modified) yield exactly 2 + 1 RenderResults. -/
theorem c4_ordering_witness :
    (file_watch (fun _ _ => .ok "# Hello") markdownToHtml (fun _ => true)
        ⟨"notes.md", "localhost:3000", none, false, 0, false, false⟩
        ([(⟨.modify (.data .content), ["notes.md"]⟩ : NotifyEvent),
          ⟨.modify (.metadata .writeTime), ["notes.md"]⟩].map Except.ok)).pushed.length
      = [(⟨.modify (.data .content), ["notes.md"]⟩ : NotifyEvent),
          ⟨.modify (.metadata .writeTime), ["notes.md"]⟩].length + 1 :=
  (c4_ordering (fun _ _ => .ok "# Hello") markdownToHtml
    ⟨"notes.md", "localhost:3000", none, false, 0, false, false⟩
    [⟨.modify (.data .content), ["notes.md"]⟩,
     ⟨.modify (.metadata .writeTime), ["notes.md"]⟩] (by decide)).2

/-! ## Claim C7 -/

/-- C7: the first RenderResult through the Delivery Channel is always the
mandatory initial read-and-render of the configured filename, never one
caused by a filesystem event: whenever the initial push succeeds, the
head of the pushed sequence is the initial render, for every incoming
event stream whatsoever. -/
theorem c7_initial_first (fs : String → Nat → Except String String)
    (render : String → Options → Except String String)
    (pushOk : Nat → Bool) (cli : Cli)
    (evts : List (Except String NotifyEvent)) (h0 : pushOk 0 = true) :
    (file_watch fs render pushOk cli evts).pushed.head?
      = some (read_to_event fs render cli.filename cli.html) := by
  simp [file_watch, h0]

/-- C7: witness — with an event already queued, the first pushed result is
still the initial render of the configured file. -/
theorem c7_initial_first_witness :
    (file_watch (fun _ _ => .ok "# Hello") markdownToHtml (fun _ => true)
        ⟨"notes.md", "localhost:3000", none, false, 0, false, false⟩
        [.ok ⟨.modify (.data .content), ["notes.md"]⟩]).pushed.head?
      = some (read_to_event (fun _ _ => .ok "# Hello") markdownToHtml "notes.md" false) :=
  c7_initial_first (fun _ _ => .ok "# Hello") markdownToHtml (fun _ => true)
    ⟨"notes.md", "localhost:3000", none, false, 0, false, false⟩
    [.ok ⟨.modify (.data .content), ["notes.md"]⟩] rfl

/-! ## Claim C9 -/

/-- C9: an accepted modify-class event re-reads the first path carried by
the event itself, not the WatchTarget filename fixed at session start:
only the initial render reads cli.filename, while the change-triggered
render reads the event's reported path p, even when p differs from
cli.filename. -/
theorem c9_event_path (fs : String → Nat → Except String String)
    (render : String → Options → Except String String)
    (cli : Cli) (evt : NotifyEvent) (p : String) (ps : List String)
    (hk : evt.kind.is_modify = true) (hp : evt.paths = p :: ps) :
    (file_watch fs render (fun _ => true) cli [.ok evt]).pushed
      = [read_to_event fs render cli.filename cli.html,
         read_to_event fs render p cli.html] := by
  simp [file_watch, file_watch_loop, hk, hp]

/-- C9: witness — the session is configured on a.md but the event reports
b.md; the triggered render reads b.md (the read oracle returns the path it
was asked for, so the two results demonstrably use different paths). -/
theorem c9_event_path_witness :
    (file_watch (fun q _ => .ok q) markdownToHtml (fun _ => true)
        ⟨"a.md", "localhost:3000", none, false, 0, false, false⟩
        [.ok ⟨.modify (.data .content), ["b.md"]⟩]).pushed
      = [read_to_event (fun q _ => .ok q) markdownToHtml "a.md" false,
         read_to_event (fun q _ => .ok q) markdownToHtml "b.md" false] :=
  c9_event_path (fun q _ => .ok q) markdownToHtml
    ⟨"a.md", "localhost:3000", none, false, 0, false, false⟩
    ⟨.modify (.data .content), ["b.md"]⟩ "b.md" [] rfl rfl

/-! ## Claim C10 -/

/-- C10: processing an accepted modify-class event indexes the event's
path list at 0 without an emptiness check: an accepted event with an empty
path list makes the session's event loop panic — the session pushes
nothing beyond the initial render, processes none of the remaining
events, and ends in the panicked state instead of returning an error or
skipping the event. -/
theorem c10_empty_paths_panic (fs : String → Nat → Except String String)
    (render : String → Options → Except String String)
    (pushOk : Nat → Bool) (cli : Cli) (evt : NotifyEvent)
    (rest : List (Except String NotifyEvent))
    (hk : evt.kind.is_modify = true) (hp : evt.paths = [])
    (h0 : pushOk 0 = true) :
    file_watch fs render pushOk cli (.ok evt :: rest)
      = ⟨[read_to_event fs render cli.filename cli.html], .panicked⟩ := by
  simp [file_watch, file_watch_loop, hk, hp, h0]

/-- C10: witness — a modify event with an empty path list panics the loop
even though later events are still queued. -/
theorem c10_empty_paths_panic_witness :
    file_watch (fun _ _ => .ok "# Hello") markdownToHtml (fun _ => true)
        ⟨"notes.md", "localhost:3000", none, false, 0, false, false⟩
        [.ok ⟨.modify .any, []⟩, .ok ⟨.modify (.data .content), ["notes.md"]⟩]
      = ⟨[read_to_event (fun _ _ => .ok "# Hello") markdownToHtml "notes.md" false],
         .panicked⟩ :=
  c10_empty_paths_panic (fun _ _ => .ok "# Hello") markdownToHtml (fun _ => true)
    ⟨"notes.md", "localhost:3000", none, false, 0, false, false⟩
    ⟨.modify .any, []⟩ [.ok ⟨.modify (.data .content), ["notes.md"]⟩] rfl rfl rfl

/-! ## Claim C6 -/

/-- C6: a render error never fails the pipeline or propagates as a
session fault: whenever the read succeeds with some text and the renderer
fails on it with message m, read_to_event still returns an Ok
RenderResult, whose markup body is exactly the renderer's human-readable
error message, delivered to the viewer like any other content. -/
theorem c6_render_error (fs : String → Nat → Except String String)
    (render : String → Options → Except String String)
    (filepath md msg : String) (hm : Bool)
    (hread : (retry_read (fs filepath) filepath).result = .ok md)
    (hrender : render md (mdOpts hm) = .error msg) :
    read_to_event fs render filepath hm = .ok ⟨msg, "body"⟩ := by
  simp [read_to_event, hread, hrender]

/-- C6: witness — a renderer that rejects its input still yields an Ok
RenderResult whose body is the renderer's error message. -/
theorem c6_render_error_witness :
    read_to_event (fun _ _ => .ok "~~~broken") (fun _ _ => .error "unexpected character")
        "notes.md" false
      = .ok ⟨"unexpected character", "body"⟩ :=
  c6_render_error (fun _ _ => .ok "~~~broken") (fun _ _ => .error "unexpected character")
    "notes.md" "~~~broken" "unexpected character" false rfl rfl

/-! ## Claim C8 -/

/-- C8: for a source file containing a script tag, with the
dangerous-content policy flag unset the rendered markup contains no
executable script tag (the raw markup is escaped), while with the flag
set the rendered markup of the same input contains the literal tag. The
option wiring is read_to_event's from the source; the renderer is the
spec-modelled markdownToHtml. -/
theorem c8_dangerous_html :
    read_to_event (fun _ _ => .ok "<script>x</script>") markdownToHtml "notes.md" false
      = .ok ⟨"&lt;script&gt;x&lt;/script&gt;", "body"⟩
    ∧ strContains "&lt;script&gt;x&lt;/script&gt;" "<script>" = false
    ∧ read_to_event (fun _ _ => .ok "<script>x</script>") markdownToHtml "notes.md" true
      = .ok ⟨"<script>x</script>", "body"⟩
    ∧ strContains "<script>x</script>" "<script>" = true :=
  ⟨rfl, by decide, rfl, by decide⟩

/-! ## Claim C5 -/

/-- C5: the Delivery Channel is a bounded FIFO of capacity exactly 30
RenderResults; a push onto a full buffer with a live but stalled consumer
suspends (wouldBlock) rather than dropping any buffered item, a push onto
a non-full buffer appends at the back (FIFO order), a push after the
consumer disconnected fails (closed), and a session whose push fails
terminates — a failed push is file_watch's only disconnection signal,
whether it is the initial push or a later one. -/
theorem c5_delivery_channel :
    sse_channel_capacity = 30
    ∧ (∀ (buf : List (Except String SseEvent)) (m : Except String SseEvent),
        buf.length = 30 →
        Channel.push ⟨sse_channel_capacity, buf, true⟩ m = .wouldBlock)
    ∧ (∀ (buf : List (Except String SseEvent)) (m : Except String SseEvent),
        buf.length < 30 →
        Channel.push ⟨sse_channel_capacity, buf, true⟩ m
          = .enqueued ⟨sse_channel_capacity, buf ++ [m], true⟩)
    ∧ (∀ (c : Channel (Except String SseEvent)) (m : Except String SseEvent),
        c.receiverOpen = false → c.push m = .closed)
    ∧ (∀ (fs : String → Nat → Except String String)
        (render : String → Options → Except String String)
        (pushOk : Nat → Bool) (cli : Cli)
        (evts : List (Except String NotifyEvent)),
        pushOk 0 = false →
        file_watch fs render pushOk cli evts = ⟨[], .pushFailed⟩)
    ∧ (∀ (fs : String → Nat → Except String String)
        (render : String → Options → Except String String)
        (pushOk : Nat → Bool) (cli : Cli) (evt : NotifyEvent)
        (p : String) (ps : List String)
        (rest : List (Except String NotifyEvent)),
        evt.kind.is_modify = true → evt.paths = p :: ps →
        pushOk 0 = true → pushOk 1 = false →
        file_watch fs render pushOk cli (.ok evt :: rest)
          = ⟨[read_to_event fs render cli.filename cli.html], .pushFailed⟩) := by
  refine ⟨rfl, ?_, ?_, ?_, ?_, ?_⟩
  · intro buf m hlen
    simp [Channel.push, sse_channel_capacity, hlen]
  · intro buf m hlen
    simp [Channel.push, sse_channel_capacity, hlen]
  · intro c m hopen
    simp [Channel.push, hopen]
  · intro fs render pushOk cli evts h0
    simp [file_watch, h0]
  · intro fs render pushOk cli evt p ps rest hk hp h0 h1
    simp [file_watch, file_watch_loop, hk, hp, h0, h1]

/-- C5: witness — the 31st push onto a stalled consumer's full buffer
would block (the buffer keeps all 30 items), a push after disconnection
fails, and a session whose first push fails terminates immediately. -/
theorem c5_delivery_channel_witness :
    Channel.push ⟨sse_channel_capacity,
        List.replicate 30 (Except.error "stalled"), true⟩
        (Except.ok (⟨"late", "body"⟩ : SseEvent))
      = .wouldBlock
    ∧ Channel.push (⟨sse_channel_capacity, [], false⟩ : Channel (Except String SseEvent))
        (.ok ⟨"late", "body"⟩) = .closed
    ∧ file_watch (fun _ _ => .ok "# Hello") markdownToHtml (fun _ => false)
        ⟨"notes.md", "localhost:3000", none, false, 0, false, false⟩ []
      = ⟨[], .pushFailed⟩ :=
  ⟨c5_delivery_channel.2.1 (List.replicate 30 (Except.error "stalled"))
      (Except.ok ⟨"late", "body"⟩) (by decide),
   c5_delivery_channel.2.2.2.1 ⟨sse_channel_capacity, [], false⟩
      (.ok ⟨"late", "body"⟩) rfl,
   c5_delivery_channel.2.2.2.2.1 (fun _ _ => .ok "# Hello") markdownToHtml
      (fun _ => false) ⟨"notes.md", "localhost:3000", none, false, 0, false, false⟩
      [] rfl⟩

end Boca
